import Mathlib

/-!
# Verification of the SQL-Agent backend (src/backend/main.py)

Shallow embedding of the session-scoped ingestion pipeline, the name
sanitizer, the query endpoint and the result normalizer of the backend,
together with proofs and refutations of the specification's claims.

External collaborators (pandas, the SQLite engine, the LangChain agent,
`ast.literal_eval`) are modelled as explicit parameters or, where the spec
pins down their contract, as small definitions marked as modelled from the
spec.  Strings are treated at the level of their character lists; Python's
`str.lower`/`str.strip` are modelled by their ASCII behaviour, which is
exact on every character class the code distinguishes.
-/

namespace SQLAgent

/-- The character class `[0-9a-z_]` of the sanitizer's regular expression
`[^0-9a-z_]+` in `_safe_table_name` (code points of `0`-`9`, `a`-`z`, `_`). -/
def isAllowedChar (c : Char) : Bool :=
  (48 ≤ c.toNat && c.toNat ≤ 57) || (97 ≤ c.toNat && c.toNat ≤ 122) || (c.toNat == 95)

/-- Models `re.sub(r"[^0-9a-z_]+", "_", ·)`: every maximal run of characters
outside `[0-9a-z_]` becomes a single underscore.  The boolean flag records
whether we are inside a run that has already emitted its underscore. -/
def subRuns : List Char → Bool → List Char
  | [], _ => []
  | c :: cs, inRun =>
    if isAllowedChar c then c :: subRuns cs false
    else if inRun then subRuns cs true
    else '_' :: subRuns cs true

/-- Models Python `str.strip()` (whitespace removal at both ends). -/
def pyStrip (l : List Char) : List Char :=
  ((l.dropWhile Char.isWhitespace).reverse.dropWhile Char.isWhitespace).reverse

/-- Models `re.match(r"^\d", ·)`: does the string start with a digit
(code points of `0`-`9`)? -/
def startsWithDigit : List Char → Bool
  | [] => false
  | c :: _ => 48 ≤ c.toNat && c.toNat ≤ 57

/-- The character-list body of `_safe_table_name`: strip, lowercase, collapse
runs outside `[0-9a-z_]`, and prefix `t_` when the result starts with a
digit. -/
def sanitizeCore (l : List Char) : List Char :=
  if startsWithDigit (subRuns ((pyStrip l).map Char.toLower) false)
  then 't' :: '_' :: subRuns ((pyStrip l).map Char.toLower) false
  else subRuns ((pyStrip l).map Char.toLower) false

/-- `_safe_table_name` from `src/backend/main.py`:
`name.strip().lower()`, then `re.sub(r"[^0-9a-z_]+", "_", name)`, then a
`t_` prefix when the result starts with a digit, and `name or "table1"`
(Python falsiness of the empty string) as the final fallback. -/
def safe_table_name (s : String) : String :=
  if sanitizeCore s.data = [] then "table1" else ⟨sanitizeCore s.data⟩

/-- The sanitizer exactly as claim C4 words it: lowercase, collapse runs of
characters outside `[0-9a-z_]` to one underscore, `t_` prefix when the result
starts with a digit, fallback `table1` when empty — with no initial strip. -/
def sanitizeClaimSteps (s : String) : String :=
  let t := subRuns (s.data.map Char.toLower) false
  let t := if startsWithDigit t then 't' :: '_' :: t else t
  if t = [] then "table1" else ⟨t⟩

/-- Decides the pattern of spec section 8, `^[a-z_][a-z0-9_]*$`. -/
def matchesIdentPattern (s : String) : Bool :=
  match s.data with
  | [] => false
  | c :: cs =>
    ((97 ≤ c.toNat && c.toNat ≤ 122) || c.toNat == 95) && cs.all isAllowedChar

/-! ## Python values and the result normalizer -/

/-- Python literal values as produced by `ast.literal_eval` and handled by the
normalizer.  Dictionary keys are kept as strings: the only dictionaries the
code constructs are keyed by the synthesized column names, and parsed
dictionaries are only ever passed through or iterated over their keys. -/
inductive PyVal where
  | none : PyVal
  | bool (b : Bool)
  | int (n : Int)
  | str (s : String)
  | list (xs : List PyVal)
  | tuple (xs : List PyVal)
  | dict (kvs : List (String × PyVal))

/-- Python truthiness (`if rows ...`): `None`, `False`, `0`, `""` and empty
containers are falsy. -/
def pyTruthy : PyVal → Bool
  | .none => false
  | .bool b => b
  | .int n => n != 0
  | .str s => s != ""
  | .list xs => !xs.isEmpty
  | .tuple xs => !xs.isEmpty
  | .dict kvs => !kvs.isEmpty

/-- Python iteration as used by `zip(column_names, r)`: lists and tuples yield
their elements, strings their characters (as one-character strings),
dictionaries their keys; numbers, booleans and `None` are not iterable and
make `zip` raise a `TypeError`. -/
def pyIterate : PyVal → Option (List PyVal)
  | .list xs => some xs
  | .tuple xs => some xs
  | .str s => some (s.data.map (fun c => .str ⟨[c]⟩))
  | .dict kvs => some (kvs.map (fun kv => .str kv.1))
  | _ => Option.none

/-- Python `dict(pairs)`: a later pair with an already-present key overwrites
the value in place; otherwise the pair is appended. -/
def dictInsert (d : List (String × PyVal)) (k : String) (v : PyVal) :
    List (String × PyVal) :=
  if d.any (fun p => p.1 == k) then d.map (fun p => if p.1 == k then (k, v) else p)
  else d ++ [(k, v)]

def dictFromPairs (l : List (String × PyVal)) : List (String × PyVal) :=
  l.foldl (fun d p => dictInsert d p.1 p.2) []

/-- The synthesized column names `[f"col_{i+1}" for i in range(n)]`. -/
def colNames (n : Nat) : List String :=
  (List.range n).map (fun i => "col_" ++ toString (i + 1))

/-- Models `dict(zip(column_names, r))` for one row `r`: `none` is the
`TypeError` of zipping a non-iterable row. -/
def rowToRecord (cols : List String) (r : PyVal) : Option PyVal :=
  (pyIterate r).map (fun elems => .dict (dictFromPairs (cols.zip elems)))

/-- The list comprehension `[dict(zip(column_names, r)) for r in rows]`:
left to right, aborting the whole comprehension when one row raises. -/
def mapRows (f : PyVal → Option PyVal) : List PyVal → Option (List PyVal)
  | [] => some []
  | r :: rest =>
    match f r with
    | Option.none => Option.none
    | some v => (mapRows f rest).map (fun vs => v :: vs)

/-- Lines 243-246 of `main.py`: the tuple-to-record conversion applied to the
parsed value, inside the endpoint's blanket `try`.
`if rows and isinstance(rows, list) and len(rows) > 0` holds exactly when the
value is a non-empty Python list; when additionally `rows[0]` is a list or a
tuple, every row is zipped with `col_1..col_N` (`N = len(rows[0])`); a
non-iterable row raises, which the outer handler turns into `rows = None`
(modelled by `Option.none`).  In every other case the parsed value is kept
unchanged. -/
def convertStep (v : PyVal) : Option PyVal :=
  match v with
  | .list (r0 :: rest) =>
    match r0 with
    | .list xs =>
      (mapRows (rowToRecord (colNames xs.length)) (r0 :: rest)).map PyVal.list
    | .tuple xs =>
      (mapRows (rowToRecord (colNames xs.length)) (r0 :: rest)).map PyVal.list
    | _ => some v
  | _ => some v

/-- One trace entry: LangChain's `(AgentAction, observation)` pair.  `tool`
and `tool_input` are the attributes the code reads after its `hasattr`
checks; `malformed` stands for any entry that fails the
`isinstance(step, (list, tuple)) and len(step) >= 2` or `hasattr` guards and
is skipped. -/
structure AgentAction where
  tool : String
  tool_input : String

inductive TraceItem where
  | pair (action : AgentAction) (output : PyVal)
  | malformed

/-- Does this trace entry pass the guards and name the query tool? -/
def isQueryItem : TraceItem → Bool
  | .pair a _ => a.tool == "sql_db_query"
  | .malformed => false

/-- Lines 215-223 of `main.py`: the inputs of every `sql_db_query` invocation,
in trace order, duplicates included. -/
def sqlQueriesOf : List TraceItem → List String
  | [] => []
  | .pair a _ :: rest =>
    if a.tool == "sql_db_query" then a.tool_input :: sqlQueriesOf rest
    else sqlQueriesOf rest
  | .malformed :: rest => sqlQueriesOf rest

/-- `output.strip().startswith("[")`: after stripping whitespace at both
ends, is the first character `[`? -/
def strippedStartsBracket (s : String) : Bool :=
  match pyStrip s.data with
  | [] => false
  | c :: _ => c == '['

/-- Lines 234-246 of `main.py` applied to the output of one `sql_db_query`
entry: when the output is a string whose stripped form starts with `[`, it is
parsed with `parse` (modelling `ast.literal_eval`; `Option.none` is a parse
failure, absorbed as `rows = None`), then the tuple-to-record conversion runs
on the parsed value. -/
def processEntry (parse : String → Option PyVal) : PyVal → Option PyVal
  | .str s =>
    if strippedStartsBracket s then
      match parse s with
      | Option.none => Option.none
      | some v => convertStep v
    else Option.none
  | _ => Option.none

/-- Lines 226-250 of `main.py`: walk the trace, skip malformed entries and
entries whose tool is not `sql_db_query`, and `break` after processing the
first `sql_db_query` entry — whatever the shape of its output. -/
def extractRows (parse : String → Option PyVal) : List TraceItem → Option PyVal
  | [] => Option.none
  | .pair a out :: rest =>
    if a.tool == "sql_db_query" then processEntry parse out
    else extractRows parse rest
  | .malformed :: rest => extractRows parse rest

/-- The rows extraction exactly as claim C3 words it: the first `sql_db_query`
entry anywhere in the trace whose output is a string that, after stripping,
starts with `[` is the one that is parsed — earlier `sql_db_query` entries
with differently-shaped outputs are passed over. -/
def extractRowsClaim (parse : String → Option PyVal) : List TraceItem → Option PyVal
  | [] => Option.none
  | .pair a out :: rest =>
    if a.tool == "sql_db_query" &&
        (match out with
         | .str s => strippedStartsBracket s
         | _ => false) then
      processEntry parse out
    else extractRowsClaim parse rest
  | .malformed :: rest => extractRowsClaim parse rest

/-! ## Filesystem model and the two endpoints -/

/-- The on-disk state: an association list from paths to file contents. -/
abbrev FS : Type := List (String × String)

def lookupFS (fs : FS) (p : String) : Option String :=
  (fs.find? (fun e => e.1 == p)).map (fun e => e.2)

/-- `open(path, "wb")` followed by a full write: create or overwrite. -/
def fsWrite (fs : FS) (p c : String) : FS :=
  (p, c) :: fs.filter (fun e => e.1 != p)

/-- `os.remove(path)` (a no-op when the path is absent, matching the
`os.path.exists` guard in the code). -/
def fsRemove (fs : FS) (p : String) : FS :=
  fs.filter (fun e => e.1 != p)

/-- `UPLOAD_DIR` and `DB_DIR` of `main.py` (the common `BASE_DIR` prefix is
elided; only the distinctness and shape of the two directories matter). -/
def UPLOAD_DIR : String := "uploads"

def DB_DIR : String := "databases"

def savedPathOf (sid fname : String) : String :=
  UPLOAD_DIR ++ "/" ++ sid ++ "_" ++ fname

def dbPathOf (sid : String) : String :=
  DB_DIR ++ "/" ++ sid ++ ".db"

/-- Python `s.lower()` (ASCII model). -/
def pyLowerStr (s : String) : String := ⟨s.data.map Char.toLower⟩

/-- Python `s.endswith(suffix)`. -/
def strEndsWith (s sfx : String) : Bool := sfx.data.isSuffixOf s.data

/-- `os.path.splitext(s)[0]`: the name up to the last dot, except that a name
whose characters before that dot are all dots has no extension. -/
def splitextStem (s : String) : String :=
  let cs := s.data
  match cs.reverse.findIdx? (fun c => c == '.') with
  | Option.none => s
  | some k =>
    let stem := cs.take (cs.length - k - 1)
    if stem.all (fun c => c == '.') then s else ⟨stem⟩

/-- An opaque parsed relation (a pandas `DataFrame`); the backend never
inspects its contents, only hands it to the store writer. -/
abbrev Table : Type := String

/-- An exception flowing out of the upload `try` block: either the
`HTTPException` raised by the unsupported-extension branch, or any other
exception (parser or store writer).  `tryErrStr` is Python's `str(e)`;
Starlette's `HTTPException.__str__` is `f"{status_code}: {detail}"`. -/
inductive TryErr where
  | httpExn (code : Nat) (detail : String)
  | exn (msg : String)

def tryErrStr : TryErr → String
  | .httpExn code d => toString code ++ ": " ++ d
  | .exn m => m

structure UploadOk where
  session_id : String
  tables : List String
  message : Option String

inductive UploadOutcome where
  | httpError (status : Nat) (detail : String)
  | ok (resp : UploadOk)

/-- The multi-sheet loop of the Excel branch: for each `(sheet_name, df)`,
sanitize the sheet name and write the relation, collecting names in order.
`toSql` models `df.to_sql(..., if_exists="replace")`: it returns the new
filesystem and, when the write failed, the exception message. -/
def writeSheets (toSql : FS → String → String → Table → FS × Option String)
    (db_path : String) : FS → List (String × Table) → FS × Except String (List String)
  | fs, [] => (fs, .ok [])
  | fs, (name, df) :: rest =>
    let tn := safe_table_name name
    match toSql fs db_path tn df with
    | (fs1, some e) => (fs1, .error e)
    | (fs1, Option.none) =>
      match writeSheets toSql db_path fs1 rest with
      | (fs2, .ok tns) => (fs2, .ok (tn :: tns))
      | (fs2, .error e) => (fs2, .error e)

/-- The body of the upload `try` block: extension dispatch — including the
`HTTPException(400)` of the unsupported-extension branch, which here is an
exception value flowing *out of* the block — parse, and store writes.
Receives the filesystem with the raw file already saved. -/
def uploadTryStep
    (readCsv : String → Except String Table)
    (readExcel : String → Except String (List (String × Table)))
    (toSql : FS → String → String → Table → FS × Option String)
    (filename contents db_path : String) (fs1 : FS) :
    FS × Except TryErr (List String) :=
  if strEndsWith (pyLowerStr filename) ".csv" then
    match readCsv contents with
    | .error e => (fs1, .error (.exn e))
    | .ok df =>
      match toSql fs1 db_path (safe_table_name (splitextStem filename)) df with
      | (fsW, some e) => (fsW, .error (.exn e))
      | (fsW, Option.none) => (fsW, .ok [safe_table_name (splitextStem filename)])
  else if strEndsWith (pyLowerStr filename) ".xls" ||
      strEndsWith (pyLowerStr filename) ".xlsx" then
    match readExcel contents with
    | .error e => (fs1, .error (.exn e))
    | .ok sheets =>
      match writeSheets toSql db_path fs1 sheets with
      | (fsW, .ok tns) => (fsW, .ok tns)
      | (fsW, .error e) => (fsW, .error (.exn e))
  else
    (fs1, .error (.httpExn 400 "Only CSV and Excel Files are supported"))

/-- The `/upload` endpoint (`upload_file` in `main.py`).  `readCsv` and
`readExcel` model `pd.read_csv` / `pd.read_excel(..., sheet_name=None)` on
the uploaded bytes; `toSql` models `df.to_sql`.  Control flow follows the
source: the missing-filename check is outside the `try`; the raw bytes are
saved first; the `try` block is `uploadTryStep`, and the blanket
`except Exception` removes both artifacts and re-raises as HTTP 500. -/
def upload
    (readCsv : String → Except String Table)
    (readExcel : String → Except String (List (String × Table)))
    (toSql : FS → String → String → Table → FS × Option String)
    (session_id filename contents : String) (fs : FS) : UploadOutcome × FS :=
  if filename == "" then (.httpError 400 "Missing Files..", fs)
  else
    match uploadTryStep readCsv readExcel toSql filename contents
        (dbPathOf session_id) (fsWrite fs (savedPathOf session_id filename) contents) with
    | (fs2, .ok tables) =>
      (.ok ⟨session_id, tables, some "Files processed into SQLite DB."⟩, fs2)
    | (fs2, .error err) =>
      (.httpError 500 ("Error processing file: " ++ tryErrStr err),
       fsRemove (fsRemove fs2 (savedPathOf session_id filename)) (dbPathOf session_id))

/-! ### The `/ask` endpoint -/

structure QueryRequest where
  session_id : String
  question : String
  top_k : Int

/-- The dictionary passed to `agent.invoke` on line 209:
`{"input": query.question}`. -/
def agentInvokeInput (q : QueryRequest) : List (String × PyVal) :=
  [("input", .str q.question)]

structure AgentResult where
  output : String
  intermediate_steps : List TraceItem

structure DBConn where
  path : String
  mode : String

/-- The connection string built on line 195 of `main.py`. -/
def askUri (db_path : String) : String :=
  "sqlite:///file:" ++ db_path ++ "?mode=ro&uri=true"

/-- `SQLDatabase.from_uri(askUri db_path)`: the SQLite URI carries the query
parameter `mode=ro`, so the handle's mode is `"ro"`. -/
def askConnection (db_path : String) : DBConn :=
  { path := db_path, mode := "ro" }

/-- Modelled from the spec: the embedded relational engine's
connection-string-level read-only mode — "a storage connection mode that
rejects mutation at the engine level, independent of application logic".
Executing a statement on a `"ro"` connection leaves the filesystem untouched;
on any other mode a statement may rewrite the store file. -/
def execOnConn (conn : DBConn) (fs : FS) (sql : String) : FS :=
  if conn.mode == "ro" then fs else fsWrite fs conn.path sql

def runSqls (conn : DBConn) : FS → List String → FS
  | fs, [] => fs
  | fs, s :: rest => runSqls conn (execOnConn conn fs s) rest

structure QueryResponse where
  answer : String
  sql_queries : List String
  rows : Option PyVal

inductive AskOutcome where
  | httpError (status : Nat) (detail : String)
  | ok (resp : QueryResponse)

/-- The `/ask` endpoint (`ask_question` in `main.py`).  The external agent is
a parameter: given the invocation input it issues some SQL statements against
the session's connection and either raises (`Except.error`) or returns its
answer and trace.  The endpoint: resolve the store path and 404 when absent;
open the read-only connection; invoke the agent (500 on failure); extract the
executed queries and the optional rows from the trace. -/
def ask
    (parse : String → Option PyVal)
    (agent : List (String × PyVal) → List String × Except String AgentResult)
    (fs : FS) (q : QueryRequest) : AskOutcome × FS :=
  let db_path := dbPathOf q.session_id
  match lookupFS fs db_path with
  | Option.none => (.httpError 404 "Session not found", fs)
  | some _ =>
    let conn := askConnection db_path
    match agent (agentInvokeInput q) with
    | (sqls, .error e) =>
      (.httpError 500 ("Agent execution failed: " ++ e), runSqls conn fs sqls)
    | (sqls, .ok result) =>
      (.ok { answer := result.output,
             sql_queries := sqlQueriesOf result.intermediate_steps,
             rows := extractRows parse result.intermediate_steps },
       runSqls conn fs sqls)

/-- A concrete fragment of `ast.literal_eval`, used to instantiate the
`parse` parameter on the literals appearing in this development; each line
agrees with what `ast.literal_eval` returns on that string. -/
def litevalStub : String → Option PyVal
  | "[]" => some (.list [])
  | "[(1,)]" => some (.list [.tuple [.int 1]])
  | _ => Option.none

/-! ## Sanitizer lemmas -/

/-- Sanity vectors: the spec's test `"2024 Sales" -> t_2024_sales`, the
Python behaviour on whitespace, empty and unicode inputs, and the stem
splitter against `os.path.splitext`. -/
theorem sanitizer_test_vectors :
    safe_table_name "2024 Sales" = "t_2024_sales" ∧
    safe_table_name " abc " = "abc" ∧
    safe_table_name "" = "table1" ∧
    safe_table_name "   " = "table1" ∧
    safe_table_name "Héllo--World" = "h_llo_world" ∧
    splitextStem "data.txt" = "data" ∧
    splitextStem "2024 Sales.csv" = "2024 Sales" ∧
    splitextStem ".csv" = ".csv" ∧
    splitextStem "a.b.csv" = "a.b" := by
  decide

theorem subRuns_allowed (l : List Char) (b : Bool) :
    ∀ c ∈ subRuns l b, isAllowedChar c = true := by
  induction l generalizing b with
  | nil => intro c hc; simp [subRuns] at hc
  | cons x xs ih =>
    intro c hc
    by_cases hx : isAllowedChar x = true
    · simp [subRuns, hx] at hc
      rcases hc with rfl | hc
      · exact hx
      · exact ih false c hc
    · simp [subRuns, hx] at hc
      cases b with
      | true => simpa using ih true c (by simpa using hc)
      | false =>
        simp at hc
        rcases hc with rfl | hc
        · decide
        · exact ih true c hc

theorem subRuns_fixed (l : List Char) (h : ∀ c ∈ l, isAllowedChar c = true) :
    subRuns l false = l := by
  induction l with
  | nil => rfl
  | cons x xs ih =>
    have hx : isAllowedChar x = true := h x (by simp)
    simp [subRuns, hx]
    exact ih (fun c hc => h c (by simp [hc]))

theorem allowed_char_ge48 (c : Char) (h : isAllowedChar c = true) :
    48 ≤ c.toNat := by
  simp only [isAllowedChar, Bool.or_eq_true, Bool.and_eq_true,
    decide_eq_true_eq, beq_iff_eq] at h
  omega

theorem not_ws_of_allowed (c : Char) (h : isAllowedChar c = true) :
    c.isWhitespace = false := by
  have h48 := allowed_char_ge48 c h
  have hs : c ≠ ' ' := fun hc => by subst hc; exact absurd h48 (by decide)
  have ht : c ≠ '\t' := fun hc => by subst hc; exact absurd h48 (by decide)
  have hr : c ≠ '\r' := fun hc => by subst hc; exact absurd h48 (by decide)
  have hn : c ≠ '\n' := fun hc => by subst hc; exact absurd h48 (by decide)
  simp [Char.isWhitespace, hs, ht, hr, hn]

theorem toLower_allowed (c : Char) (h : isAllowedChar c = true) :
    c.toLower = c := by
  have hn : ¬(Char.toNat c ≥ 65 ∧ Char.toNat c ≤ 90) := by
    simp only [isAllowedChar, Bool.or_eq_true, Bool.and_eq_true,
      decide_eq_true_eq, beq_iff_eq] at h
    omega
  simp only [Char.toLower]
  rw [if_neg hn]

theorem dropWhile_ws_eq_self (l : List Char)
    (h : ∀ c ∈ l, Char.isWhitespace c = false) :
    l.dropWhile Char.isWhitespace = l := by
  cases l with
  | nil => rfl
  | cons c cs => simp [List.dropWhile_cons, h c (by simp)]

theorem pyStrip_eq_self (l : List Char)
    (h : ∀ c ∈ l, Char.isWhitespace c = false) :
    pyStrip l = l := by
  unfold pyStrip
  rw [dropWhile_ws_eq_self l h]
  rw [dropWhile_ws_eq_self l.reverse (fun c hc => h c (List.mem_reverse.mp hc))]
  exact List.reverse_reverse l

theorem sanitizeCore_allowed (l : List Char) :
    ∀ c ∈ sanitizeCore l, isAllowedChar c = true := by
  unfold sanitizeCore
  intro c hc
  split at hc
  · simp only [List.mem_cons] at hc
    rcases hc with rfl | rfl | h
    · decide
    · decide
    · exact subRuns_allowed _ _ c h
  · exact subRuns_allowed _ _ c hc

theorem sanitizeCore_not_digit (l : List Char) :
    startsWithDigit (sanitizeCore l) = false := by
  unfold sanitizeCore
  split
  · rfl
  · rename_i h
    simpa using h

theorem map_toLower_fixed (l : List Char) (h : ∀ c ∈ l, isAllowedChar c = true) :
    l.map Char.toLower = l := by
  rw [List.map_congr_left (fun c hc => toLower_allowed c (h c hc))]
  exact List.map_id l

theorem sanitizeCore_fixed (l : List Char)
    (hall : ∀ c ∈ l, isAllowedChar c = true)
    (hd : startsWithDigit l = false) :
    sanitizeCore l = l := by
  unfold sanitizeCore
  rw [pyStrip_eq_self l (fun c hc => not_ws_of_allowed c (hall c hc))]
  rw [map_toLower_fixed l hall, subRuns_fixed l hall]
  simp [hd]

/-! ## Claim C4 -/

/-- C4, counterexample: on the input `" abc "` the code's sanitizer returns
`"abc"` (it strips leading/trailing whitespace first), while the claim's
"exactly these steps" — lowercase, collapse runs, digit prefix, fallback,
with no strip — would return `"_abc_"`: the claim's own parenthetical about
leading/trailing underscores contradicts the code. -/
theorem C4_counterexample :
    safe_table_name " abc " = "abc" ∧
    sanitizeClaimSteps " abc " = "_abc_" ∧
    sanitizeClaimSteps " abc " ≠ safe_table_name " abc " :=
  ⟨by decide, by decide, by decide⟩

/-- C4 (amended): for every input string `s`, `_safe_table_name s` equals the
result of applying the claim's exact steps — lowercase, collapse every
maximal run of characters outside `[0-9a-z_]` to one underscore, prefix
`t_` when the result starts with a digit, fallback `table1` when empty —
to `s` with its leading and trailing whitespace stripped first. -/
theorem C4_sanitizer_is_claim_steps_after_strip (s : String) :
    safe_table_name s = sanitizeClaimSteps ⟨pyStrip s.data⟩ := rfl

/-! ## Claim C7 -/

/-- C7: for every string `s`, `_safe_table_name s` is non-empty, matches
`^[a-z_][a-z0-9_]*$`, and the sanitizer is idempotent. -/
theorem C7_sanitizer_wellformed_idempotent (s : String) :
    safe_table_name s ≠ "" ∧
    matchesIdentPattern (safe_table_name s) = true ∧
    safe_table_name (safe_table_name s) = safe_table_name s := by
  by_cases h : sanitizeCore s.data = []
  · have hs : safe_table_name s = "table1" := by simp [safe_table_name, h]
    rw [hs]
    exact ⟨by decide, by decide, by decide⟩
  · have hs : safe_table_name s = ⟨sanitizeCore s.data⟩ := by
      simp [safe_table_name, h]
    have hall := sanitizeCore_allowed s.data
    have hd := sanitizeCore_not_digit s.data
    have hfix : sanitizeCore (sanitizeCore s.data) = sanitizeCore s.data :=
      sanitizeCore_fixed _ hall hd
    refine ⟨?_, ?_, ?_⟩
    · rw [hs]
      intro he
      exact h (congrArg String.data he)
    · rw [hs]
      rcases hne : sanitizeCore s.data with _ | ⟨c, cs⟩
      · exact absurd hne h
      · have hc : isAllowedChar c = true := by
          rw [hne] at hall
          exact hall c (by simp)
        have hcs : ∀ x ∈ cs, isAllowedChar x = true := by
          rw [hne] at hall
          exact fun x hx => hall x (by simp [hx])
        have hdc : ¬(48 ≤ c.toNat ∧ c.toNat ≤ 57) := by
          rw [hne] at hd
          simpa [startsWithDigit, Bool.and_eq_true, decide_eq_true_eq] using hd
        show (((97 ≤ c.toNat && c.toNat ≤ 122) || c.toNat == 95) &&
          cs.all isAllowedChar) = true
        rw [Bool.and_eq_true, Bool.or_eq_true]
        constructor
        · simp only [isAllowedChar, Bool.or_eq_true, Bool.and_eq_true,
            decide_eq_true_eq, beq_iff_eq] at hc ⊢
          omega
        · exact List.all_eq_true.mpr hcs
    · rw [hs]
      show safe_table_name ⟨sanitizeCore s.data⟩ = ⟨sanitizeCore s.data⟩
      simp [safe_table_name, hfix, h]

/-! ## Claim C1 -/

/-- C1, counterexample: two `/ask` requests that differ only in `top_k`
(5 versus 99) produce the same agent invocation input — line 209 passes
`{"input": query.question}` and never forwards `top_k`, so the invocation
input is not a function of both question and `top_k`. -/
theorem C1_counterexample :
    (⟨"s1", "how many rows?", 5⟩ : QueryRequest) ≠ ⟨"s1", "how many rows?", 99⟩ ∧
    agentInvokeInput ⟨"s1", "how many rows?", 5⟩ =
      agentInvokeInput ⟨"s1", "how many rows?", 99⟩ :=
  ⟨fun he => absurd (congrArg QueryRequest.top_k he) (by decide), rfl⟩

/-- C1 (amended): the agent invocation input is `{"input": question}` — a
function of the question text alone; `top_k` is accepted by the request model
(default 5) but never forwarded to the agent. -/
theorem C1_agent_input_question_only (q q' : QueryRequest)
    (h : q.question = q'.question) :
    agentInvokeInput q = agentInvokeInput q' ∧
    agentInvokeInput q = [("input", PyVal.str q.question)] := by
  refine ⟨?_, rfl⟩
  unfold agentInvokeInput
  rw [h]

theorem C1_witness :
    agentInvokeInput ⟨"s1", "q", 5⟩ = agentInvokeInput ⟨"s1", "q", 99⟩ ∧
    agentInvokeInput ⟨"s1", "q", 5⟩ = [("input", PyVal.str "q")] :=
  C1_agent_input_question_only ⟨"s1", "q", 5⟩ ⟨"s1", "q", 99⟩ rfl

/-! ## Claim C9 -/

/-- C9: when no store file exists at the session-derived path, `/ask` returns
HTTP 404 "Session not found" (and leaves the filesystem untouched) — never a
crash, never a success. -/
theorem C9_missing_session_404
    (parse : String → Option PyVal)
    (agent : List (String × PyVal) → List String × Except String AgentResult)
    (fs : FS) (q : QueryRequest)
    (h : lookupFS fs (dbPathOf q.session_id) = Option.none) :
    ask parse agent fs q = (.httpError 404 "Session not found", fs) := by
  simp [ask, h]

theorem C9_witness :
    lookupFS ([] : FS) (dbPathOf "nosuch") = Option.none ∧
    ask litevalStub (fun _ => ([], Except.error "down")) ([] : FS) ⟨"nosuch", "q", 5⟩ =
      (AskOutcome.httpError 404 "Session not found", ([] : FS)) :=
  ⟨rfl, C9_missing_session_404 _ _ _ _ rfl⟩

/-! ## Claim C6 -/

theorem runSqls_ro (p : String) (fs : FS) (l : List String) :
    runSqls (askConnection p) fs l = fs := by
  induction l generalizing fs with
  | nil => rfl
  | cons a rest ih => exact ih fs

theorem askUri_contains_mode_ro (p : String) :
    ∃ a b, (askUri p).data = a ++ ("mode=ro" : String).data ++ b := by
  refine ⟨("sqlite:///file:" : String).data ++ p.data ++ ("?" : String).data,
    ("&uri=true" : String).data, ?_⟩
  have h1 : askUri p = "sqlite:///file:" ++ p ++ "?mode=ro&uri=true" := rfl
  rw [h1, String.data_append, String.data_append]
  have h2 : ("?mode=ro&uri=true" : String).data =
      ("?" : String).data ++ ("mode=ro" : String).data ++ ("&uri=true" : String).data := by
    decide
  rw [h2]
  simp [List.append_assoc]

/-- C6: every `/ask` request opens the session store through a connection
whose URI carries `mode=ro` (the literal is part of the connection string for
every session id), and the request leaves the filesystem — in particular the
store file — unchanged, whatever SQL the agent issues. -/
theorem C6_read_only_no_mutation
    (parse : String → Option PyVal)
    (agent : List (String × PyVal) → List String × Except String AgentResult)
    (fs : FS) (q : QueryRequest) :
    (ask parse agent fs q).2 = fs ∧
    (∃ a b, (askUri (dbPathOf q.session_id)).data =
      a ++ ("mode=ro" : String).data ++ b) := by
  refine ⟨?_, askUri_contains_mode_ro _⟩
  cases hl : lookupFS fs (dbPathOf q.session_id) with
  | none => simp [ask, hl]
  | some v =>
    cases hA : agent (agentInvokeInput q) with
    | mk sqls res => cases res <;> simp [ask, hl, hA, runSqls_ro]

/-! ## Claim C5 -/

theorem lookupFS_eq_none_iff (fs : FS) (q : String) :
    lookupFS fs q = Option.none ↔ ∀ e ∈ fs, ¬(e.1 = q) := by
  unfold lookupFS
  rw [Option.map_eq_none', List.find?_eq_none]
  simp

theorem lookupFS_fsRemove_self (fs : FS) (p : String) :
    lookupFS (fsRemove fs p) p = Option.none := by
  rw [lookupFS_eq_none_iff]
  intro e he
  have := (List.mem_filter.mp he).2
  simpa using this

theorem lookupFS_fsRemove_none (fs : FS) (p q : String)
    (h : lookupFS fs q = Option.none) :
    lookupFS (fsRemove fs p) q = Option.none := by
  rw [lookupFS_eq_none_iff] at h ⊢
  intro e he
  exact h e (List.mem_filter.mp he).1

/-- C5: whenever `/upload` fails inside its parse-and-store block (HTTP 500),
the final filesystem holds neither the raw-file artifact nor the session's
store file: the blanket handler removes both before the failure is
reported. -/
theorem C5_failed_ingestion_cleanup
    (readCsv : String → Except String Table)
    (readExcel : String → Except String (List (String × Table)))
    (toSql : FS → String → String → Table → FS × Option String)
    (sid fname contents : String) (fs : FS) (d : String) (fs' : FS)
    (h : upload readCsv readExcel toSql sid fname contents fs =
      (.httpError 500 d, fs')) :
    lookupFS fs' (savedPathOf sid fname) = Option.none ∧
    lookupFS fs' (dbPathOf sid) = Option.none := by
  unfold upload at h
  split at h
  · simp at h
  · cases hstep : uploadTryStep readCsv readExcel toSql fname contents
        (dbPathOf sid) (fsWrite fs (savedPathOf sid fname) contents) with
    | mk fs2 res =>
      rw [hstep] at h
      cases res with
      | ok tables => simp at h
      | error err =>
        simp only [Prod.mk.injEq, UploadOutcome.httpError.injEq] at h
        obtain ⟨⟨-, -⟩, h2⟩ := h
        rw [← h2]
        exact ⟨lookupFS_fsRemove_none _ _ _ (lookupFS_fsRemove_self _ _),
          lookupFS_fsRemove_self _ _⟩

theorem C5_witness :
    lookupFS ((upload (fun _ => .error "bad csv") (fun _ => .error "unused")
        (fun fs _ _ _ => (fs, Option.none)) "s1" "a.csv" "blob" ([] : FS)).2)
      (savedPathOf "s1" "a.csv") = Option.none ∧
    lookupFS ((upload (fun _ => .error "bad csv") (fun _ => .error "unused")
        (fun fs _ _ _ => (fs, Option.none)) "s1" "a.csv" "blob" ([] : FS)).2)
      (dbPathOf "s1") = Option.none :=
  C5_failed_ingestion_cleanup (fun _ => .error "bad csv") (fun _ => .error "unused")
    (fun fs _ _ _ => (fs, Option.none)) "s1" "a.csv" "blob" []
    "Error processing file: bad csv" _ rfl

/-! ## Claim C2 -/

/-- C2: the claim (and spec) say an unsupported extension yields HTTP 400
distinct from the HTTP 500 used for parse/storage errors, and the code's own
`raise HTTPException(status_code=400, ...)` agrees — but that raise sits
inside the `try`, is caught by `except Exception`, and is re-raised as
HTTP 500 with Starlette's `str(e)` (`"400: ..."`) embedded in the message.
This theorem evaluates the endpoint on a `.txt` upload: the response is 500,
not 400. -/
theorem C2_unsupported_extension_yields_500 :
    upload (fun _ => .error "unused") (fun _ => .error "unused")
      (fun fs _ _ _ => (fs, Option.none)) "s1" "data.txt" "blob" ([] : FS) =
    (.httpError 500 "Error processing file: 400: Only CSV and Excel Files are supported",
     ([] : FS)) := rfl

/-! ## Claim C3 -/

theorem extractRows_append_no_query (parse : String → Option PyVal)
    (pre rest : List TraceItem)
    (hpre : ∀ x ∈ pre, isQueryItem x = false) :
    extractRows parse (pre ++ rest) = extractRows parse rest := by
  induction pre with
  | nil => rfl
  | cons x xs ih =>
    have htail : ∀ y ∈ xs, isQueryItem y = false := fun y hy => hpre y (by simp [hy])
    cases x with
    | malformed => simpa [extractRows] using ih htail
    | pair a out =>
      have hx : (a.tool == "sql_db_query") = false := by
        simpa [isQueryItem] using hpre (.pair a out) (by simp)
      simpa [extractRows, hx] using ih htail

theorem extractRows_cons_query (parse : String → Option PyVal)
    (a : AgentAction) (out : PyVal) (rest : List TraceItem)
    (ha : a.tool = "sql_db_query") :
    extractRows parse (.pair a out :: rest) = processEntry parse out := by
  simp [extractRows, ha]

/-- C3, counterexample: in a trace whose first `sql_db_query` entry has the
non-`[`-shaped output `"no rows found"` and whose second has output
`"[(1,)]"`, the code's extraction yields `None` — the loop breaks on the
first query entry whatever its output looks like — while the claim's reading
(first entry whose output starts with `[`) yields the parsed rows. -/
theorem C3_counterexample :
    extractRows litevalStub
      [.pair ⟨"sql_db_query", "SELECT a FROM t"⟩ (.str "no rows found"),
       .pair ⟨"sql_db_query", "SELECT b FROM t"⟩ (.str "[(1,)]")] = Option.none ∧
    extractRowsClaim litevalStub
      [.pair ⟨"sql_db_query", "SELECT a FROM t"⟩ (.str "no rows found"),
       .pair ⟨"sql_db_query", "SELECT b FROM t"⟩ (.str "[(1,)]")] =
      some (.list [.dict [("col_1", .int 1)]]) :=
  ⟨rfl, rfl⟩

/-- C3 (amended): the rows field is derived from the first `sql_db_query`
entry of the trace, full stop: non-query entries before it are skipped, and
nothing after it is ever inspected.  Its output is parsed only when it is a
string that, stripped, starts with `[`; otherwise rows is `None`, even when a
later query entry carries a `[`-shaped output. -/
theorem C3_first_query_entry_decides (parse : String → Option PyVal)
    (pre post : List TraceItem) (a : AgentAction) (out : PyVal)
    (hpre : ∀ x ∈ pre, isQueryItem x = false)
    (ha : a.tool = "sql_db_query") :
    extractRows parse (pre ++ .pair a out :: post) = processEntry parse out := by
  rw [extractRows_append_no_query parse pre _ hpre]
  exact extractRows_cons_query parse a out post ha

theorem C3_witness :
    extractRows litevalStub
      [.pair ⟨"sql_db_list_tables", "t"⟩ (.str "users"),
       .pair ⟨"sql_db_query", "SELECT 1"⟩ (.str "zero rows"),
       .pair ⟨"sql_db_query", "SELECT 2"⟩ (.str "[(1,)]")] =
      processEntry litevalStub (.str "zero rows") :=
  C3_first_query_entry_decides litevalStub
    [.pair ⟨"sql_db_list_tables", "t"⟩ (.str "users")]
    [.pair ⟨"sql_db_query", "SELECT 2"⟩ (.str "[(1,)]")]
    ⟨"sql_db_query", "SELECT 1"⟩ (.str "zero rows")
    (by decide) rfl

/-! ## Claim C8 -/

theorem mapRows_all_iterable (cols : List String) (l : List PyVal)
    (h : ∀ r ∈ l, (pyIterate r).isSome) :
    mapRows (rowToRecord cols) l =
      some (l.map (fun r => .dict (dictFromPairs (cols.zip ((pyIterate r).getD []))))) := by
  induction l with
  | nil => rfl
  | cons r rs ih =>
    obtain ⟨elems, he⟩ := Option.isSome_iff_exists.mp (h r (by simp))
    have ihh := ih (fun x hx => h x (by simp [hx]))
    simp [mapRows, rowToRecord, he, ihh]

/-- C8, counterexample: `[(1, 2), 5]` is a non-empty parsed list whose first
element is a tuple of length 2, yet the conversion does not turn every row
into a record — zipping the non-iterable row `5` raises a `TypeError`, which
the blanket handler absorbs into `rows = None`. -/
theorem C8_counterexample :
    pyTruthy (.list [.tuple [.int 1, .int 2], .int 5]) = true ∧
    convertStep (.list [.tuple [.int 1, .int 2], .int 5]) = Option.none :=
  ⟨rfl, rfl⟩

/-- C8 (amended): for a parsed non-empty list whose first element is a list
or tuple of length `N` and all of whose elements are iterable, every row is
converted into a record by zipping the synthesized names `col_1..col_N` with
the row's elements (`dict(zip(...))` semantics); when any row is not
iterable, the whole rows enrichment degrades to `None` (see the
counterexample); and when the first element is already a mapping, the parsed
rows are passed through unchanged. -/
theorem C8_positional_rows_conversion (first : PyVal) (rest xs : List PyVal)
    (hfirst : first = .tuple xs ∨ first = .list xs)
    (hiter : ∀ r ∈ first :: rest, (pyIterate r).isSome) :
    (convertStep (.list (first :: rest)) =
      some (.list ((first :: rest).map
        (fun r => .dict (dictFromPairs ((colNames xs.length).zip ((pyIterate r).getD []))))))) ∧
    (∀ kvs rest2, convertStep (.list (.dict kvs :: rest2)) = some (.list (.dict kvs :: rest2))) := by
  constructor
  · rcases hfirst with rfl | rfl
    · show (mapRows (rowToRecord (colNames xs.length)) (PyVal.tuple xs :: rest)).map PyVal.list = _
      rw [mapRows_all_iterable _ _ hiter]
      rfl
    · show (mapRows (rowToRecord (colNames xs.length)) (PyVal.list xs :: rest)).map PyVal.list = _
      rw [mapRows_all_iterable _ _ hiter]
      rfl
  · intro kvs rest2
    rfl

theorem C8_witness :
    convertStep (.list [.tuple [.int 1, .str "a"], .tuple [.int 2, .str "b"]]) =
      some (.list [.dict [("col_1", .int 1), ("col_2", .str "a")],
                   .dict [("col_1", .int 2), ("col_2", .str "b")]]) := by
  have h := (C8_positional_rows_conversion (.tuple [.int 1, .str "a"])
    [.tuple [.int 2, .str "b"]] [.int 1, .str "a"] (Or.inl rfl) (by decide)).1
  exact h.trans rfl

/-! ## Claim C10 -/

/-- C10: when the first query entry's output parses to the empty list, the
response's rows field is `Some []` — the `col_i` conversion is skipped
(Python's `if rows` is falsy on `[]`) but the parsed empty list is kept, so
the client sees `[]`, not `None`. -/
theorem C10_empty_parsed_rows
    (parse : String → Option PyVal)
    (agent : List (String × PyVal) → List String × Except String AgentResult)
    (fs : FS) (q : QueryRequest) (c : String)
    (sqls : List String) (result : AgentResult)
    (pre post : List TraceItem) (a : AgentAction) (s : String)
    (hdb : lookupFS fs (dbPathOf q.session_id) = some c)
    (hagent : agent (agentInvokeInput q) = (sqls, .ok result))
    (hsteps : result.intermediate_steps = pre ++ .pair a (.str s) :: post)
    (hpre : ∀ x ∈ pre, isQueryItem x = false)
    (ha : a.tool = "sql_db_query")
    (hstart : strippedStartsBracket s = true)
    (hparse : parse s = some (.list [])) :
    (ask parse agent fs q).1 =
      .ok ⟨result.output, sqlQueriesOf result.intermediate_steps, some (.list [])⟩ := by
  have hrows : extractRows parse result.intermediate_steps = some (.list []) := by
    rw [hsteps, extractRows_append_no_query parse pre _ hpre,
      extractRows_cons_query parse a _ _ ha]
    simp [processEntry, hstart, hparse]
    rfl
  simp [ask, hdb, hagent, hrows]

theorem C10_witness :
    (ask litevalStub
      (fun _ => ([], Except.ok ⟨"done",
        [.pair ⟨"sql_db_query", "SELECT * FROM t"⟩ (.str "[]")]⟩))
      [(dbPathOf "s1", "store")] ⟨"s1", "q", 5⟩).1 =
      .ok ⟨"done", ["SELECT * FROM t"], some (.list [])⟩ := by
  have h := C10_empty_parsed_rows litevalStub
    (fun _ => ([], Except.ok ⟨"done",
      [.pair ⟨"sql_db_query", "SELECT * FROM t"⟩ (.str "[]")]⟩))
    [(dbPathOf "s1", "store")] ⟨"s1", "q", 5⟩ "store" []
    ⟨"done", [.pair ⟨"sql_db_query", "SELECT * FROM t"⟩ (.str "[]")]⟩
    [] [] ⟨"sql_db_query", "SELECT * FROM t"⟩ "[]"
    rfl rfl rfl (by simp) rfl rfl rfl
  exact h.trans rfl

end SQLAgent
